import Mathlib

/-!
Shallow embedding of the Oracle and MSSQL migration drivers
(src/database/oracle/oracle.go, src/database/mssql/mssql.go).

Each driver method is translated into a pure Lean function over explicit
state.  The backend database is represented by the data the methods touch
(the control-table rows as a `List (Int × Bool)`, the set of user tables as
a `List String`), and backend failures are injected through explicit
failure-plan records, one flag per backend call the Go code makes.  Every
operation additionally returns the ordered list of SQL command strings it
sent to the backend, so that claims about which commands are issued (and in
which order) can be stated directly.
-/

namespace Migrate

/-- Modelled from the spec: `database.NilVersion`, the reserved sentinel version
meaning "no migrations applied yet" (the `database` package is not under src/).
The spec fixes it as a signed value distinct from any real version, with real
versions being the non-negative ones (`v >= 0` in the round-trip property), and
`Version()` returns it when the control table has no row. -/
def NilVersion : Int := -1

/-- Modelled from the spec: `database.ErrLocked`, the locked-error kind returned
when `Lock()` is called while the advisory lock is already held by this Driver
instance (the `database` package is not under src/). -/
inductive LockFailure
| errLocked
deriving DecidableEq

/-- Shallow embedding of `database.Error`: the wrapper the drivers return,
carrying the original backend error (`OrigErr`, rendered as a string), the
optional message (`Err`), and the failing query bytes (`Query`). -/
structure DBError where
  origErr : String
  errMsg : String
  query : String
deriving DecidableEq

/-- Modelled from the spec: `database.GenerateAdvisoryLockId`, a deterministic,
stable hash of the schema/database identity (the `database` package is not under
src/; the spec fixes only that the lock identifier is derived deterministically
from that identity).  It issues no backend command and cannot fail. -/
def generateAdvisoryLockId (names : List String) : Nat :=
  (String.join names).foldl (fun acc c => (acc * 131 + c.toNat) % 4294967296) 5381

/-- The Go `b2i` map (`map[bool]int8` in both driver files): booleans are stored
as 0/1 in the control table. -/
def b2i (b : Bool) : Int := if b then 1 else 0

/-- Outcome of scanning the first control-table row through
`QueryRowContext(query).Scan(&version, &dirty)`: a row, `sql.ErrNoRows`, an
error whose dynamic type matches the vendor error interface
(`OraErr` / `SQLError`), or any other backend error. -/
inductive ScanOutcome
| row (version : Int) (dirty : Bool)
| noRows
| vendorFailure (code : Int) (message : String)
| otherFailure (message : String)
deriving DecidableEq

/-- First row of the control table as the backend returns it for a
`WHERE ROWNUM = 1` / `TOP 1` query: `noRows` when the table is empty. -/
def queryFirstRow (table : List (Int × Bool)) : ScanOutcome :=
  match table with
  | [] => ScanOutcome.noRows
  | (v, d) :: _ => ScanOutcome.row v d

/-- Failure injection for the backend calls a `SetVersion` transaction makes:
one flag per call site (`BeginTx`, the `TRUNCATE` exec, the `INSERT` exec,
`Commit`). -/
structure FailPlan where
  beginTxFails : Bool
  truncateFails : Bool
  insertFails : Bool
  commitFails : Bool
deriving DecidableEq

/-- The failure plan under which every backend call succeeds. -/
def noFail : FailPlan := ⟨false, false, false, false⟩

/-- Outcome of `ioutil.ReadAll(migration)` inside `Run`. -/
inductive ReadOutcome
| ok (payload : String)
| fail (message : String)
deriving DecidableEq

/-- Outcome of executing the migration payload through `ExecContext`: success,
an error matching the vendor error interface (with its code and message), or
any other error. -/
inductive ExecOutcome
| ok
| vendorFailure (code : Int) (message : String)
| otherFailure (message : String)
deriving DecidableEq

/-- An error returned by `Run`: either the bare `ReadAll` error (returned by
`return err`, unwrapped) or a `database.Error`. -/
inductive RunError
| readFailure (message : String)
| dbFailure (e : DBError)
deriving DecidableEq

/-- The raw payload bytes attached to a `Run` error, when any are attached:
only the `database.Error` arm carries a `Query` field. -/
def RunError.attachedQuery : RunError → Option String
| RunError.readFailure _ => none
| RunError.dbFailure e => some e.query

end Migrate

namespace Oracle

open Migrate

/-- `oracle.Config`. -/
structure Config where
  MigrationsTable : String
  SchemaName : String
deriving DecidableEq

/-- The driver-local state of an `Oracle` value: the dedicated connection and
pool handles (tracked as open/closed), the in-memory lock flag, and the
config. -/
structure Driver where
  connOpen : Bool
  dbOpen : Bool
  isLocked : Bool
  config : Config
deriving DecidableEq

def DefaultMigrationsTable : String := "schema_migrations"

/-- Result of `Lock`/`Unlock`: the returned error (if any), the updated driver
state, and the backend commands issued. -/
structure LockResult where
  failure : Option LockFailure
  driver : Driver
  cmds : List String
deriving DecidableEq

/-- `(*Oracle).Lock`: returns `database.ErrLocked` if `isLocked` is already
set; otherwise computes the advisory lock id from the schema name and sets the
in-memory flag.  The advisory-lock query in the source is commented out, so no
backend command is issued. -/
def lock (ora : Driver) : LockResult :=
  if ora.isLocked then
    ⟨some LockFailure.errLocked, ora, []⟩
  else
    let _ := generateAdvisoryLockId [ora.config.SchemaName]
    ⟨none, { ora with isLocked := true }, []⟩

/-- `(*Oracle).Unlock`: returns success immediately if not locked; otherwise
computes the advisory lock id and clears the in-memory flag.  The
advisory-unlock query in the source is commented out, so no backend command is
issued. -/
def unlock (ora : Driver) : LockResult :=
  if !ora.isLocked then
    ⟨none, ora, []⟩
  else
    let _ := generateAdvisoryLockId [ora.config.SchemaName]
    ⟨none, { ora with isLocked := false }, []⟩

/-- The `TRUNCATE` statement `SetVersion` issues. -/
def truncateQuery (cfg : Config) : String :=
  "TRUNCATE TABLE \"" ++ cfg.MigrationsTable ++ "\""

/-- The `INSERT` statement `SetVersion` issues when `version >= 0`
(`fmt.Sprintf` with `%d` for the version and `b2i[dirty]`). -/
def insertQuery (cfg : Config) (version : Int) (dirty : Bool) : String :=
  "INSERT INTO \"" ++ cfg.MigrationsTable ++ "\" (version, dirty) VALUES ("
    ++ toString version ++ ", \x27" ++ toString (b2i dirty) ++ "\x27)"

/-- Result of `SetVersion`: the returned error (if any), the control-table rows
after the call (after commit, or after rollback on failure), and the statements
handed to `tx.Exec` in order. -/
structure SetVersionResult where
  err : Option DBError
  table : List (Int × Bool)
  cmds : List String
deriving DecidableEq

/-- `(*Oracle).SetVersion`: begins a transaction, truncates the control table,
inserts `(version, b2i[dirty])` when `version >= 0`, commits.  On a failure of
any statement the transaction is rolled back, leaving the table as it was; a
failed commit likewise leaves the table unchanged. -/
def setVersion (fp : FailPlan) (cfg : Config) (table : List (Int × Bool))
    (version : Int) (dirty : Bool) : SetVersionResult :=
  if fp.beginTxFails then
    ⟨some ⟨"begin tx failed", "transaction start failed", ""⟩, table, []⟩
  else if fp.truncateFails then
    ⟨some ⟨"exec failed", "", truncateQuery cfg⟩, table, [truncateQuery cfg]⟩
  else if version ≥ 0 then
    if fp.insertFails then
      ⟨some ⟨"exec failed", "", insertQuery cfg version dirty⟩, table,
        [truncateQuery cfg, insertQuery cfg version dirty]⟩
    else if fp.commitFails then
      ⟨some ⟨"commit failed", "transaction commit failed", ""⟩, table,
        [truncateQuery cfg, insertQuery cfg version dirty]⟩
    else
      ⟨none, [(version, dirty)], [truncateQuery cfg, insertQuery cfg version dirty]⟩
  else if fp.commitFails then
    ⟨some ⟨"commit failed", "transaction commit failed", ""⟩, table,
      [truncateQuery cfg]⟩
  else
    ⟨none, [], [truncateQuery cfg]⟩

/-- Iterated `SetVersion`: folds a sequence of calls (each with its own failure
plan, version and dirty flag) over the control table. -/
def setVersions (cfg : Config) (ops : List (FailPlan × Int × Bool))
    (table : List (Int × Bool)) : List (Int × Bool) :=
  ops.foldl (fun tb op => (setVersion op.1 cfg tb op.2.1 op.2.2).table) table

/-- The query `Version` issues. -/
def versionQuery (cfg : Config) : String :=
  "SELECT version, dirty FROM \"" ++ cfg.MigrationsTable ++ "\" WHERE ROWNUM = 1"

/-- Result of `Version`: the Go named return values `(version, dirty, err)`. -/
structure VersionResult where
  version : Int
  dirty : Bool
  err : Option DBError
deriving DecidableEq

/-- `(*Oracle).Version`: scans the first control-table row.  `sql.ErrNoRows`
and any error matching `OraErr` yield `(NilVersion, false, nil)`; any other
error is wrapped in a `database.Error` carrying the query; otherwise the row is
returned. -/
def version (cfg : Config) (scan : ScanOutcome) : VersionResult :=
  match scan with
  | ScanOutcome.noRows => ⟨NilVersion, false, none⟩
  | ScanOutcome.vendorFailure _ _ => ⟨NilVersion, false, none⟩
  | ScanOutcome.otherFailure m => ⟨0, false, some ⟨m, "", versionQuery cfg⟩⟩
  | ScanOutcome.row v d => ⟨v, d, none⟩

/-- `(*Oracle).Run`: reads the payload to completion (a read failure is
returned as-is by `return err`); executes it; an error matching `OraErr` is
wrapped with its `Message()` attached, any other error with the generic
`"migration failed"` tag; in both wrapped cases the raw payload bytes are the
`Query` field. -/
def run (rd : ReadOutcome) (exec : ExecOutcome) : Option RunError :=
  match rd with
  | ReadOutcome.fail m => some (RunError.readFailure m)
  | ReadOutcome.ok migr =>
    match exec with
    | ExecOutcome.ok => none
    | ExecOutcome.vendorFailure code m =>
      some (RunError.dbFailure ⟨"ora error " ++ toString code, m, migr⟩)
    | ExecOutcome.otherFailure m =>
      some (RunError.dbFailure ⟨m, "migration failed", migr⟩)

/-- Failure injection for the backend calls `WithInstance` makes: `Ping`, the
schema-discovery query, obtaining the dedicated connection, and the calls
inside `ensureVersionTable` (collapsed to one flag; no claim depends on which
of its two statements fails).  `reportedSchemaName` is what the backend answers
to `sys_context` — the backend's own notion of identity. -/
structure WithInstanceEnv where
  pingFails : Bool
  schemaQueryFails : Bool
  reportedSchemaName : String
  connFails : Bool
  ensureTableFails : Bool
deriving DecidableEq

/-- The errors `WithInstance` can return. -/
inductive WithInstanceFailure
| nilConfig
| pingFailed
| queryFailed (e : DBError)
| noSchema
| connFailed
| ensureTableFailed
deriving DecidableEq

/-- The schema-discovery query `WithInstance` issues. -/
def schemaQuery : String :=
  "select sys_context(\x27userenv\x27,\x27db_name\x27) from dual"

/-- `oracle.WithInstance`: rejects a nil config; pings; queries the backend for
its own schema name, failing with a wrapped error on a query error and with
`ErrNoSchema` on an empty answer; stores the discovered name into the config
(unconditionally overwriting any caller-supplied `SchemaName`); defaults
`MigrationsTable`; obtains the dedicated connection; ensures the version table
(which locks and unlocks, leaving `isLocked` false). -/
def withInstance (env : WithInstanceEnv) (config : Option Config) :
    Except WithInstanceFailure Driver :=
  match config with
  | none => Except.error WithInstanceFailure.nilConfig
  | some cfg =>
    if env.pingFails then Except.error WithInstanceFailure.pingFailed
    else if env.schemaQueryFails then
      Except.error (WithInstanceFailure.queryFailed ⟨"scan failed", "", schemaQuery⟩)
    else if env.reportedSchemaName.length = 0 then
      Except.error WithInstanceFailure.noSchema
    else
      let cfg1 := { cfg with SchemaName := env.reportedSchemaName }
      let cfg2 := if cfg1.MigrationsTable.length = 0 then
          { cfg1 with MigrationsTable := DefaultMigrationsTable } else cfg1
      if env.connFails then Except.error WithInstanceFailure.connFailed
      else if env.ensureTableFails then Except.error WithInstanceFailure.ensureTableFailed
      else Except.ok { connOpen := true, dbOpen := true, isLocked := false, config := cfg2 }

/-- Failure injection for the backend calls `Drop` makes: the `USER_TABLES`
query, the scan of row `i` of its result, the stored-procedure creation, and
the per-table drop exec for table index `i`. -/
structure DropEnv where
  queryTablesFails : Bool
  scanFailsAt : Option Nat
  createProcFails : Bool
  dropFailsAt : Option Nat
deriving DecidableEq

/-- The errors `Drop` can return: a wrapped query/exec error, or the bare scan
error (`return err` on the `Scan` failure, unwrapped). -/
inductive DropFailure
| wrapped (e : DBError)
| scanFailed (message : String)
deriving DecidableEq

/-- The stored-procedure source `Drop` installs (backends without a native
`DROP TABLE IF EXISTS`). -/
def procDropQuery : String :=
  "CREATE OR REPLACE\nprocedure proc_dropifexists(\n    TABLE_NAME in VARCHAR2\n) is\n l_count NUMBER;\nBEGIN\n SELECT COUNT(1)\n INTO l_count\n FROM USER_TABLES\n WHERE table_name = TABLE_NAME;\n IF l_count > 0 THEN\n EXECUTE IMMEDIATE \x27Drop table \x27||\x27\"\x27||TABLE_NAME||\x27\"\x27||\x27 CASCADE CONSTRAINTS\x27;\nEND IF;\nEND;"

/-- The per-table drop call `Drop` issues for table `t`. -/
def dropCallQuery (t : String) : String :=
  "BEGIN proc_dropifexists(\x27" ++ t ++ "\x27); END;"

/-- The drop loop of `Drop`: drops the collected names one by one; when the
exec for the name at index `failAt` fails, that name and the later ones remain.
Returns the failing name (if any) and the names still standing. -/
def dropLoop (failAt : Option Nat) (names : List String) :
    Option String × List String :=
  match names with
  | [] => (none, [])
  | t :: rest =>
    match failAt with
    | some 0 => (some t, t :: rest)
    | some (n + 1) =>
      let r := dropLoop (some n) rest
      (r.1, r.2)
    | none =>
      let r := dropLoop none rest
      (r.1, r.2)

/-- The part of `Drop` after the scan loop has collected the table names:
installs `proc_dropifexists`, then drops each collected (non-empty) name one by
one. -/
def dropAfterScan (env : DropEnv) (ora : Driver) (userTables : List String) :
    Option DropFailure × Driver × List String :=
  let tableNames := userTables.filter (fun t => 0 < t.length)
  if env.createProcFails then
    (some (DropFailure.wrapped ⟨"exec failed", "", procDropQuery⟩), ora, userTables)
  else
    let r := dropLoop env.dropFailsAt tableNames
    match r.1 with
    | some t =>
      (some (DropFailure.wrapped ⟨"exec failed", "", dropCallQuery t⟩), ora,
        userTables.filter (fun u => u.length = 0 ∨ u ∈ r.2))
    | none =>
      (none, ora, userTables.filter (fun u => u.length = 0))

/-- `(*Oracle).Drop`: queries `USER_TABLES`, scans the names (keeping the
non-empty ones), installs `proc_dropifexists`, then drops each collected table
one by one.  It never touches `isLocked` nor closes the connection or the pool:
the result carries the driver state through unchanged, only the backend's table
list changes. -/
def drop (env : DropEnv) (ora : Driver) (userTables : List String) :
    Option DropFailure × Driver × List String :=
  let q := "SELECT TABLE_NAME FROM USER_TABLES"
  if env.queryTablesFails then
    (some (DropFailure.wrapped ⟨"query failed", "", q⟩), ora, userTables)
  else
    match env.scanFailsAt with
    | some i =>
      if i < userTables.length then
        (some (DropFailure.scanFailed "scan failed"), ora, userTables)
      else
        dropAfterScan env ora userTables
    | none => dropAfterScan env ora userTables

end Oracle

namespace Mssql

open Migrate

/-- `mssql.Config`. -/
structure Config where
  MigrationsTable : String
  DatabaseName : String
  SchemaName : String
deriving DecidableEq

/-- The driver-local state of a `Mssql` value. -/
structure Driver where
  connOpen : Bool
  dbOpen : Bool
  isLocked : Bool
  config : Config
deriving DecidableEq

def DefaultMigrationsTable : String := "schema_migrations"

/-- Result of `Lock`/`Unlock`: the returned error (if any), the updated driver
state, and the backend commands issued. -/
structure LockResult where
  failure : Option LockFailure
  driver : Driver
  cmds : List String
deriving DecidableEq

/-- `(*Mssql).Lock`: returns `database.ErrLocked` if `isLocked` is already set;
otherwise computes the advisory lock id from the database and schema names and
sets the in-memory flag.  The advisory-lock query in the source is commented
out, so no backend command is issued. -/
def lock (ms : Driver) : LockResult :=
  if ms.isLocked then
    ⟨some LockFailure.errLocked, ms, []⟩
  else
    let _ := generateAdvisoryLockId [ms.config.DatabaseName, ms.config.SchemaName]
    ⟨none, { ms with isLocked := true }, []⟩

/-- `(*Mssql).Unlock`: returns success immediately if not locked; otherwise
computes the advisory lock id and clears the in-memory flag, issuing no backend
command. -/
def unlock (ms : Driver) : LockResult :=
  if !ms.isLocked then
    ⟨none, ms, []⟩
  else
    let _ := generateAdvisoryLockId [ms.config.DatabaseName, ms.config.SchemaName]
    ⟨none, { ms with isLocked := false }, []⟩

/-- The `TRUNCATE` statement `SetVersion` issues. -/
def truncateQuery (cfg : Config) : String :=
  "TRUNCATE TABLE " ++ cfg.MigrationsTable

/-- The `INSERT` statement `SetVersion` issues when `version >= 0`. -/
def insertQuery (cfg : Config) (version : Int) (dirty : Bool) : String :=
  "INSERT INTO " ++ cfg.MigrationsTable ++ " (version, dirty) VALUES ("
    ++ toString version ++ ", \x27" ++ toString (b2i dirty) ++ "\x27)"

/-- Result of `SetVersion`: the returned error (if any), the control-table rows
after the call, and the statements handed to `tx.Exec` in order. -/
structure SetVersionResult where
  err : Option DBError
  table : List (Int × Bool)
  cmds : List String
deriving DecidableEq

/-- `(*Mssql).SetVersion`: begins a transaction, truncates the control table,
inserts `(version, b2i[dirty])` when `version >= 0`, commits; any statement
failure rolls the transaction back, leaving the table as it was. -/
def setVersion (fp : FailPlan) (cfg : Config) (table : List (Int × Bool))
    (version : Int) (dirty : Bool) : SetVersionResult :=
  if fp.beginTxFails then
    ⟨some ⟨"begin tx failed", "transaction start failed", ""⟩, table, []⟩
  else if fp.truncateFails then
    ⟨some ⟨"exec failed", "", truncateQuery cfg⟩, table, [truncateQuery cfg]⟩
  else if version ≥ 0 then
    if fp.insertFails then
      ⟨some ⟨"exec failed", "", insertQuery cfg version dirty⟩, table,
        [truncateQuery cfg, insertQuery cfg version dirty]⟩
    else if fp.commitFails then
      ⟨some ⟨"commit failed", "transaction commit failed", ""⟩, table,
        [truncateQuery cfg, insertQuery cfg version dirty]⟩
    else
      ⟨none, [(version, dirty)], [truncateQuery cfg, insertQuery cfg version dirty]⟩
  else if fp.commitFails then
    ⟨some ⟨"commit failed", "transaction commit failed", ""⟩, table,
      [truncateQuery cfg]⟩
  else
    ⟨none, [], [truncateQuery cfg]⟩

/-- Iterated `SetVersion`: folds a sequence of calls (each with its own failure
plan, version and dirty flag) over the control table. -/
def setVersions (cfg : Config) (ops : List (FailPlan × Int × Bool))
    (table : List (Int × Bool)) : List (Int × Bool) :=
  ops.foldl (fun tb op => (setVersion op.1 cfg tb op.2.1 op.2.2).table) table

/-- The query `Version` issues. -/
def versionQuery (cfg : Config) : String :=
  "SELECT TOP 1 version, dirty FROM " ++ cfg.MigrationsTable

/-- Result of `Version`: the Go named return values `(version, dirty, err)`. -/
structure VersionResult where
  version : Int
  dirty : Bool
  err : Option DBError
deriving DecidableEq

/-- `(*Mssql).Version`: scans the first control-table row.  `sql.ErrNoRows` and
any error matching `SQLError` yield `(NilVersion, false, nil)`; any other error
is wrapped in a `database.Error` carrying the query; otherwise the row is
returned. -/
def version (cfg : Config) (scan : ScanOutcome) : VersionResult :=
  match scan with
  | ScanOutcome.noRows => ⟨NilVersion, false, none⟩
  | ScanOutcome.vendorFailure _ _ => ⟨NilVersion, false, none⟩
  | ScanOutcome.otherFailure m => ⟨0, false, some ⟨m, "", versionQuery cfg⟩⟩
  | ScanOutcome.row v d => ⟨v, d, none⟩

/-- `(*Mssql).Run`: reads the payload to completion (a read failure is returned
as-is by `return err`); executes it; an error matching `SQLError` is wrapped
with its `SQLErrorMessage()` attached, any other error with the generic
`"migration failed"` tag; in both wrapped cases the raw payload bytes are the
`Query` field. -/
def run (rd : ReadOutcome) (exec : ExecOutcome) : Option RunError :=
  match rd with
  | ReadOutcome.fail m => some (RunError.readFailure m)
  | ReadOutcome.ok migr =>
    match exec with
    | ExecOutcome.ok => none
    | ExecOutcome.vendorFailure code m =>
      some (RunError.dbFailure ⟨"sql error " ++ toString code, m, migr⟩)
    | ExecOutcome.otherFailure m =>
      some (RunError.dbFailure ⟨m, "migration failed", migr⟩)

/-- Failure injection for the backend calls `WithInstance` makes: `Ping`, the
database-name query, the schema-name query, obtaining the dedicated connection,
and the statement inside `ensureVersionTable`.  `reportedDatabaseName` and
`reportedSchemaName` are what the backend answers to `DB_NAME()` and
`SCHEMA_NAME()`. -/
structure WithInstanceEnv where
  pingFails : Bool
  dbNameQueryFails : Bool
  reportedDatabaseName : String
  schemaQueryFails : Bool
  reportedSchemaName : String
  connFails : Bool
  ensureTableFails : Bool
deriving DecidableEq

/-- The errors `WithInstance` can return. -/
inductive WithInstanceFailure
| nilConfig
| pingFailed
| queryFailed (e : DBError)
| noDatabaseName
| noSchema
| connFailed
| ensureTableFailed
deriving DecidableEq

/-- The database-name discovery query. -/
def dbNameQuery : String := "SELECT DB_NAME()"

/-- The schema-name discovery query. -/
def schemaQuery : String := "SELECT SCHEMA_NAME()"

/-- `mssql.WithInstance`: rejects a nil config; pings; queries `DB_NAME()`,
failing with `ErrNoDatabaseName` on an empty answer, and `SCHEMA_NAME()`,
failing with `ErrNoSchema` on an empty answer; stores both discovered names
into the config (unconditionally overwriting any caller-supplied values);
defaults `MigrationsTable`; obtains the dedicated connection; ensures the
version table (which locks and unlocks, leaving `isLocked` false). -/
def withInstance (env : WithInstanceEnv) (config : Option Config) :
    Except WithInstanceFailure Driver :=
  match config with
  | none => Except.error WithInstanceFailure.nilConfig
  | some cfg =>
    if env.pingFails then Except.error WithInstanceFailure.pingFailed
    else if env.dbNameQueryFails then
      Except.error (WithInstanceFailure.queryFailed ⟨"scan failed", "", dbNameQuery⟩)
    else if env.reportedDatabaseName.length = 0 then
      Except.error WithInstanceFailure.noDatabaseName
    else
      let cfg1 := { cfg with DatabaseName := env.reportedDatabaseName }
      if env.schemaQueryFails then
        Except.error (WithInstanceFailure.queryFailed ⟨"scan failed", "", schemaQuery⟩)
      else if env.reportedSchemaName.length = 0 then
        Except.error WithInstanceFailure.noSchema
      else
        let cfg2 := { cfg1 with SchemaName := env.reportedSchemaName }
        let cfg3 := if cfg2.MigrationsTable.length = 0 then
            { cfg2 with MigrationsTable := DefaultMigrationsTable } else cfg2
        if env.connFails then Except.error WithInstanceFailure.connFailed
        else if env.ensureTableFails then Except.error WithInstanceFailure.ensureTableFailed
        else Except.ok { connOpen := true, dbOpen := true, isLocked := false, config := cfg3 }

/-- Failure injection for the backend calls `Drop` makes. -/
structure DropEnv where
  queryTablesFails : Bool
  scanFailsAt : Option Nat
  dropFailsAt : Option Nat
deriving DecidableEq

/-- The errors `Drop` can return: a wrapped query/exec error, or the bare scan
error. -/
inductive DropFailure
| wrapped (e : DBError)
| scanFailed (message : String)
deriving DecidableEq

/-- The per-table drop statement `Drop` issues for table `t`. -/
def dropCallQuery (t : String) : String :=
  "DROP TABLE IF EXISTS " ++ t

/-- The drop loop of `Drop`: drops the collected names one by one; when the
exec for the name at index `failAt` fails, that name and the later ones remain.
Returns the failing name (if any) and the names still standing. -/
def dropLoop (failAt : Option Nat) (names : List String) :
    Option String × List String :=
  match names with
  | [] => (none, [])
  | t :: rest =>
    match failAt with
    | some 0 => (some t, t :: rest)
    | some (n + 1) =>
      let r := dropLoop (some n) rest
      (r.1, r.2)
    | none =>
      let r := dropLoop none rest
      (r.1, r.2)

/-- The part of `Drop` after the scan loop has collected the table names. -/
def dropAfterScan (env : DropEnv) (ms : Driver) (userTables : List String) :
    Option DropFailure × Driver × List String :=
  let tableNames := userTables.filter (fun t => 0 < t.length)
  let r := dropLoop env.dropFailsAt tableNames
  match r.1 with
  | some t =>
    (some (DropFailure.wrapped ⟨"exec failed", "", dropCallQuery t⟩), ms,
      userTables.filter (fun u => u.length = 0 ∨ u ∈ r.2))
  | none =>
    (none, ms, userTables.filter (fun u => u.length = 0))

/-- `(*Mssql).Drop`: queries `INFORMATION_SCHEMA.TABLES` for the base tables of
the configured database, scans the names (keeping the non-empty ones), then
issues `DROP TABLE IF EXISTS` for each one by one.  It never touches
`isLocked` nor closes the connection or the pool: the result carries the driver
state through unchanged, only the backend's table list changes. -/
def drop (env : DropEnv) (ms : Driver) (userTables : List String) :
    Option DropFailure × Driver × List String :=
  let q := "SELECT TABLE_NAME FROM INFORMATION_SCHEMA.TABLES WHERE TABLE_TYPE = \x27BASE TABLE\x27 AND TABLE_CATALOG=\x27"
    ++ ms.config.DatabaseName ++ "\x27"
  if env.queryTablesFails then
    (some (DropFailure.wrapped ⟨"query failed", "", q⟩), ms, userTables)
  else
    match env.scanFailsAt with
    | some i =>
      if i < userTables.length then
        (some (DropFailure.scanFailed "scan failed"), ms, userTables)
      else
        dropAfterScan env ms userTables
    | none => dropAfterScan env ms userTables

end Mssql

/-- Helper for C9: the Oracle `Drop` leaves the driver value untouched in every
branch. -/
theorem oracle_dropAfterScan_driver (env : Oracle.DropEnv) (d : Oracle.Driver)
    (ts : List String) : (Oracle.dropAfterScan env d ts).2.1 = d := by
  unfold Oracle.dropAfterScan
  dsimp only
  split
  · rfl
  · split <;> rfl

/-- Helper for C9: the Oracle `Drop` leaves the driver value untouched. -/
theorem oracle_drop_driver (env : Oracle.DropEnv) (d : Oracle.Driver)
    (ts : List String) : (Oracle.drop env d ts).2.1 = d := by
  unfold Oracle.drop
  dsimp only
  split
  · rfl
  · split
    · split
      · rfl
      · exact oracle_dropAfterScan_driver env d ts
    · exact oracle_dropAfterScan_driver env d ts

/-- Helper for C9: the MSSQL `Drop` leaves the driver value untouched in every
branch. -/
theorem mssql_dropAfterScan_driver (env : Mssql.DropEnv) (d : Mssql.Driver)
    (ts : List String) : (Mssql.dropAfterScan env d ts).2.1 = d := by
  unfold Mssql.dropAfterScan
  dsimp only
  split <;> rfl

/-- Helper for C9: the MSSQL `Drop` leaves the driver value untouched. -/
theorem mssql_drop_driver (env : Mssql.DropEnv) (d : Mssql.Driver)
    (ts : List String) : (Mssql.drop env d ts).2.1 = d := by
  unfold Mssql.drop
  dsimp only
  split
  · rfl
  · split
    · split
      · rfl
      · exact mssql_dropAfterScan_driver env d ts
    · exact mssql_dropAfterScan_driver env d ts

/-- C1: for every version `v ≥ 0` and dirty flag `d`, `SetVersion(v, d)` followed
by `Version()` returns exactly `(v, d)`; and after `SetVersion(v1, d1)` then
`SetVersion(v2, d2)` with `v2 ≥ 0`, `Version()` returns exactly `(v2, d2)` — the
last write wins, values are overwritten rather than accumulated.  Both for the
Oracle and the MSSQL driver, on a successful backend. -/
theorem setVersion_version_roundtrip_overwrite
    (ocfg : Oracle.Config) (mcfg : Mssql.Config)
    (t u : List (Int × Bool)) (v v1 v2 : Int) (d d1 d2 : Bool)
    (hv : v ≥ 0) (hv2 : v2 ≥ 0) :
    Oracle.version ocfg (Migrate.queryFirstRow
      (Oracle.setVersion Migrate.noFail ocfg t v d).table) = ⟨v, d, none⟩ ∧
    Oracle.version ocfg (Migrate.queryFirstRow
      (Oracle.setVersion Migrate.noFail ocfg
        (Oracle.setVersion Migrate.noFail ocfg t v1 d1).table v2 d2).table)
      = ⟨v2, d2, none⟩ ∧
    Mssql.version mcfg (Migrate.queryFirstRow
      (Mssql.setVersion Migrate.noFail mcfg u v d).table) = ⟨v, d, none⟩ ∧
    Mssql.version mcfg (Migrate.queryFirstRow
      (Mssql.setVersion Migrate.noFail mcfg
        (Mssql.setVersion Migrate.noFail mcfg u v1 d1).table v2 d2).table)
      = ⟨v2, d2, none⟩ := by
  simp [Oracle.setVersion, Oracle.version, Mssql.setVersion, Mssql.version,
    Migrate.queryFirstRow, Migrate.noFail, hv, hv2]

/-- Witness for C1: the round trip and the overwrite at `v = 1`, `v1 = -1`,
`v2 = 2` on concrete configs and an empty initial table. -/
theorem setVersion_version_roundtrip_overwrite_witness :
    Oracle.version ⟨"schema_migrations", "ORCL"⟩ (Migrate.queryFirstRow
      (Oracle.setVersion Migrate.noFail ⟨"schema_migrations", "ORCL"⟩ [] 1 false).table)
      = ⟨1, false, none⟩ ∧
    Oracle.version ⟨"schema_migrations", "ORCL"⟩ (Migrate.queryFirstRow
      (Oracle.setVersion Migrate.noFail ⟨"schema_migrations", "ORCL"⟩
        (Oracle.setVersion Migrate.noFail ⟨"schema_migrations", "ORCL"⟩ [] (-1) false).table
        2 true).table)
      = ⟨2, true, none⟩ ∧
    Mssql.version ⟨"schema_migrations", "mydb", "dbo"⟩ (Migrate.queryFirstRow
      (Mssql.setVersion Migrate.noFail ⟨"schema_migrations", "mydb", "dbo"⟩ [] 1 false).table)
      = ⟨1, false, none⟩ ∧
    Mssql.version ⟨"schema_migrations", "mydb", "dbo"⟩ (Migrate.queryFirstRow
      (Mssql.setVersion Migrate.noFail ⟨"schema_migrations", "mydb", "dbo"⟩
        (Mssql.setVersion Migrate.noFail ⟨"schema_migrations", "mydb", "dbo"⟩ [] (-1) false).table
        2 true).table)
      = ⟨2, true, none⟩ :=
  setVersion_version_roundtrip_overwrite ⟨"schema_migrations", "ORCL"⟩
    ⟨"schema_migrations", "mydb", "dbo"⟩ [] [] 1 (-1) 2 false false true
    (by decide) (by decide)

/-- C2 fails as stated: with version `-2`, which is not the sentinel
`NilVersion = -1`, `SetVersion` clears the control table but inserts no row, in
both drivers — the insert guard is `version >= 0`, not
`version ≠ NilVersion`. -/
theorem setVersion_negative_nonsentinel_not_inserted :
    (-2 : Int) ≠ Migrate.NilVersion ∧
    (Oracle.setVersion Migrate.noFail ⟨"schema_migrations", "ORCL"⟩
      [(0, false)] (-2) false).table = [] ∧
    (Oracle.setVersion Migrate.noFail ⟨"schema_migrations", "ORCL"⟩
      [(0, false)] (-2) false).cmds
      = [Oracle.truncateQuery ⟨"schema_migrations", "ORCL"⟩] ∧
    (Mssql.setVersion Migrate.noFail ⟨"schema_migrations", "mydb", "dbo"⟩
      [(0, false)] (-2) false).table = [] ∧
    (Mssql.setVersion Migrate.noFail ⟨"schema_migrations", "mydb", "dbo"⟩
      [(0, false)] (-2) false).cmds
      = [Mssql.truncateQuery ⟨"schema_migrations", "mydb", "dbo"⟩] :=
  ⟨by decide, rfl, rfl, rfl, rfl⟩

/-- C2 amended: on a successful backend, `SetVersion(version, dirty)` first
clears the control table and then inserts exactly one row `(version, dirty)` if
and only if `version ≥ 0` — so the sentinel, like every other negative version,
leads to a cleared table with no insert.  Both drivers. -/
theorem setVersion_clear_then_insert_iff_nonneg
    (ocfg : Oracle.Config) (mcfg : Mssql.Config)
    (t u : List (Int × Bool)) (v : Int) (d : Bool) :
    (Oracle.setVersion Migrate.noFail ocfg t v d).cmds
      = Oracle.truncateQuery ocfg
        :: (if v ≥ 0 then [Oracle.insertQuery ocfg v d] else []) ∧
    (Oracle.setVersion Migrate.noFail ocfg t v d).table
      = (if v ≥ 0 then [(v, d)] else []) ∧
    (Mssql.setVersion Migrate.noFail mcfg u v d).cmds
      = Mssql.truncateQuery mcfg
        :: (if v ≥ 0 then [Mssql.insertQuery mcfg v d] else []) ∧
    (Mssql.setVersion Migrate.noFail mcfg u v d).table
      = (if v ≥ 0 then [(v, d)] else []) := by
  by_cases hv : v ≥ 0 <;>
    simp [Oracle.setVersion, Mssql.setVersion, Migrate.noFail, hv]

/-- C6: `Version()` returns the sentinel `(NilVersion, false)` with no error
both on `sql.ErrNoRows` and on any backend error matching the vendor error
interface (`OraErr` / `SQLError`); every other backend error is wrapped in a
`database.Error` carrying the failing query; a present row is returned as is.
Both drivers. -/
theorem version_sentinel_and_error_mapping
    (ocfg : Oracle.Config) (mcfg : Mssql.Config)
    (v c : Int) (d : Bool) (vm om : String) :
    Oracle.version ocfg Migrate.ScanOutcome.noRows
      = ⟨Migrate.NilVersion, false, none⟩ ∧
    Oracle.version ocfg (Migrate.ScanOutcome.vendorFailure c vm)
      = ⟨Migrate.NilVersion, false, none⟩ ∧
    Oracle.version ocfg (Migrate.ScanOutcome.otherFailure om)
      = ⟨0, false, some ⟨om, "", Oracle.versionQuery ocfg⟩⟩ ∧
    Oracle.version ocfg (Migrate.ScanOutcome.row v d) = ⟨v, d, none⟩ ∧
    Mssql.version mcfg Migrate.ScanOutcome.noRows
      = ⟨Migrate.NilVersion, false, none⟩ ∧
    Mssql.version mcfg (Migrate.ScanOutcome.vendorFailure c vm)
      = ⟨Migrate.NilVersion, false, none⟩ ∧
    Mssql.version mcfg (Migrate.ScanOutcome.otherFailure om)
      = ⟨0, false, some ⟨om, "", Mssql.versionQuery mcfg⟩⟩ ∧
    Mssql.version mcfg (Migrate.ScanOutcome.row v d) = ⟨v, d, none⟩ :=
  ⟨rfl, rfl, rfl, rfl, rfl, rfl, rfl, rfl⟩

/-- C8 fails as stated: when reading the payload source fails, `Run` returns
the bare read error (`return err`), which carries no payload bytes at all —
contradicting "every error Run returns carries the original raw payload
bytes".  Both drivers. -/
theorem run_read_failure_carries_no_payload :
    Oracle.run (Migrate.ReadOutcome.fail "unexpected EOF") Migrate.ExecOutcome.ok
      = some (Migrate.RunError.readFailure "unexpected EOF") ∧
    Mssql.run (Migrate.ReadOutcome.fail "unexpected EOF") Migrate.ExecOutcome.ok
      = some (Migrate.RunError.readFailure "unexpected EOF") ∧
    Migrate.RunError.attachedQuery
      (Migrate.RunError.readFailure "unexpected EOF") = none :=
  ⟨rfl, rfl, rfl⟩

/-- C8 amended: every error `Run` returns from executing the payload carries
the original raw payload bytes — with the vendor message attached when the
error matches the vendor interface and the generic "migration failed" tag
otherwise — while a failure to read the payload source is returned as the bare
read error, with no payload attached.  Both drivers. -/
theorem run_error_payload_mapping
    (p rm om vm : String) (c : Int) (e : Migrate.ExecOutcome) :
    Oracle.run (Migrate.ReadOutcome.ok p) (Migrate.ExecOutcome.vendorFailure c vm)
      = some (Migrate.RunError.dbFailure ⟨"ora error " ++ toString c, vm, p⟩) ∧
    Oracle.run (Migrate.ReadOutcome.ok p) (Migrate.ExecOutcome.otherFailure om)
      = some (Migrate.RunError.dbFailure ⟨om, "migration failed", p⟩) ∧
    Oracle.run (Migrate.ReadOutcome.ok p) Migrate.ExecOutcome.ok = none ∧
    Oracle.run (Migrate.ReadOutcome.fail rm) e
      = some (Migrate.RunError.readFailure rm) ∧
    Migrate.RunError.attachedQuery
      (Migrate.RunError.dbFailure ⟨"ora error " ++ toString c, vm, p⟩) = some p ∧
    Migrate.RunError.attachedQuery
      (Migrate.RunError.dbFailure ⟨om, "migration failed", p⟩) = some p ∧
    Migrate.RunError.attachedQuery (Migrate.RunError.readFailure rm) = none ∧
    Mssql.run (Migrate.ReadOutcome.ok p) (Migrate.ExecOutcome.vendorFailure c vm)
      = some (Migrate.RunError.dbFailure ⟨"sql error " ++ toString c, vm, p⟩) ∧
    Mssql.run (Migrate.ReadOutcome.ok p) (Migrate.ExecOutcome.otherFailure om)
      = some (Migrate.RunError.dbFailure ⟨om, "migration failed", p⟩) ∧
    Mssql.run (Migrate.ReadOutcome.ok p) Migrate.ExecOutcome.ok = none ∧
    Mssql.run (Migrate.ReadOutcome.fail rm) e
      = some (Migrate.RunError.readFailure rm) :=
  ⟨rfl, rfl, rfl, rfl, rfl, rfl, rfl, rfl, rfl, rfl, rfl⟩

/-- C9: `Drop` leaves the lock state and the connection handles of the driver
unchanged, whatever happens on the backend: the `isLocked` flag, the dedicated
connection and the pool handle are exactly as before the call.  Both
drivers. -/
theorem drop_preserves_lock_and_connection
    (oenv : Oracle.DropEnv) (o : Oracle.Driver) (ots : List String)
    (menv : Mssql.DropEnv) (m : Mssql.Driver) (mts : List String) :
    (Oracle.drop oenv o ots).2.1.isLocked = o.isLocked ∧
    (Oracle.drop oenv o ots).2.1.connOpen = o.connOpen ∧
    (Oracle.drop oenv o ots).2.1.dbOpen = o.dbOpen ∧
    (Mssql.drop menv m mts).2.1.isLocked = m.isLocked ∧
    (Mssql.drop menv m mts).2.1.connOpen = m.connOpen ∧
    (Mssql.drop menv m mts).2.1.dbOpen = m.dbOpen := by
  rw [oracle_drop_driver, mssql_drop_driver]
  exact ⟨rfl, rfl, rfl, rfl, rfl, rfl⟩

/-- C3: if the table clear or the row insert inside `SetVersion` fails, the
transaction is rolled back and the previously stored Version Record is left
intact — the control table after the call equals the table before, and the
error is surfaced.  Both drivers, over the same failure plan. -/
theorem setVersion_statement_failure_rolls_back
    (fp : Migrate.FailPlan) (ocfg : Oracle.Config) (mcfg : Mssql.Config)
    (t u : List (Int × Bool)) (v : Int) (d : Bool)
    (hb : fp.beginTxFails = false)
    (hf : fp.truncateFails = true ∨ (v ≥ 0 ∧ fp.insertFails = true)) :
    (Oracle.setVersion fp ocfg t v d).table = t ∧
    (Oracle.setVersion fp ocfg t v d).err ≠ none ∧
    (Mssql.setVersion fp mcfg u v d).table = u ∧
    (Mssql.setVersion fp mcfg u v d).err ≠ none := by
  rcases hf with hf | ⟨hv, hf⟩
  · simp [Oracle.setVersion, Mssql.setVersion, hb, hf]
  · by_cases ht : fp.truncateFails <;>
      simp [Oracle.setVersion, Mssql.setVersion, hb, ht, hv, hf]

/-- Witness for C3: a failing insert (failure plan `⟨false, false, true,
false⟩`) at version 3 leaves a one-row table untouched and surfaces an
error. -/
theorem setVersion_statement_failure_rolls_back_witness :
    (Oracle.setVersion ⟨false, false, true, false⟩ ⟨"schema_migrations", "ORCL"⟩
      [(2, false)] 3 false).table = [(2, false)] ∧
    (Oracle.setVersion ⟨false, false, true, false⟩ ⟨"schema_migrations", "ORCL"⟩
      [(2, false)] 3 false).err ≠ none ∧
    (Mssql.setVersion ⟨false, false, true, false⟩ ⟨"schema_migrations", "mydb", "dbo"⟩
      [(2, false)] 3 false).table = [(2, false)] ∧
    (Mssql.setVersion ⟨false, false, true, false⟩ ⟨"schema_migrations", "mydb", "dbo"⟩
      [(2, false)] 3 false).err ≠ none :=
  setVersion_statement_failure_rolls_back ⟨false, false, true, false⟩
    ⟨"schema_migrations", "ORCL"⟩ ⟨"schema_migrations", "mydb", "dbo"⟩
    [(2, false)] [(2, false)] 3 false rfl (Or.inr ⟨by decide, rfl⟩)

/-- Helper for C4: a single Oracle `SetVersion` keeps the control table at one
row or fewer. -/
theorem oracle_setVersion_table_length_le (fp : Migrate.FailPlan)
    (cfg : Oracle.Config) (t : List (Int × Bool)) (v : Int) (d : Bool)
    (h : t.length ≤ 1) : (Oracle.setVersion fp cfg t v d).table.length ≤ 1 := by
  unfold Oracle.setVersion
  split_ifs <;> simp [h]

/-- Helper for C4: a single MSSQL `SetVersion` keeps the control table at one
row or fewer. -/
theorem mssql_setVersion_table_length_le (fp : Migrate.FailPlan)
    (cfg : Mssql.Config) (t : List (Int × Bool)) (v : Int) (d : Bool)
    (h : t.length ≤ 1) : (Mssql.setVersion fp cfg t v d).table.length ≤ 1 := by
  unfold Mssql.setVersion
  split_ifs <;> simp [h]

/-- Helper for C4: folding Oracle `SetVersion` calls preserves the at-most-one-row
invariant. -/
theorem oracle_setVersions_length_le (cfg : Oracle.Config)
    (ops : List (Migrate.FailPlan × Int × Bool)) (t : List (Int × Bool))
    (h : t.length ≤ 1) : (Oracle.setVersions cfg ops t).length ≤ 1 := by
  induction ops generalizing t with
  | nil => exact h
  | cons op rest ih =>
    exact ih _ (oracle_setVersion_table_length_le op.1 cfg t op.2.1 op.2.2 h)

/-- Helper for C4: folding MSSQL `SetVersion` calls preserves the at-most-one-row
invariant. -/
theorem mssql_setVersions_length_le (cfg : Mssql.Config)
    (ops : List (Migrate.FailPlan × Int × Bool)) (t : List (Int × Bool))
    (h : t.length ≤ 1) : (Mssql.setVersions cfg ops t).length ≤ 1 := by
  induction ops generalizing t with
  | nil => exact h
  | cons op rest ih =>
    exact ih _ (mssql_setVersion_table_length_le op.1 cfg t op.2.1 op.2.2 h)

/-- C4: at most one Version Record ever exists — starting from a control table
with at most one row (in particular the fresh empty one), any sequence of
`SetVersion` calls, each with an arbitrary version, dirty flag and backend
failure plan, leaves the control table with zero or one rows.  Both drivers. -/
theorem setVersion_sequence_at_most_one_row
    (ocfg : Oracle.Config) (mcfg : Mssql.Config)
    (ops : List (Migrate.FailPlan × Int × Bool))
    (t u : List (Int × Bool)) (ht : t.length ≤ 1) (hu : u.length ≤ 1) :
    (Oracle.setVersions ocfg ops t).length ≤ 1 ∧
    (Mssql.setVersions mcfg ops u).length ≤ 1 :=
  ⟨oracle_setVersions_length_le ocfg ops t ht,
   mssql_setVersions_length_le mcfg ops u hu⟩

/-- Witness for C4: three calls (set 1, fail the insert at 2, clear with the
sentinel) starting from the empty table leave at most one row. -/
theorem setVersion_sequence_at_most_one_row_witness :
    (Oracle.setVersions ⟨"schema_migrations", "ORCL"⟩
      [(Migrate.noFail, 1, false), (⟨false, false, true, false⟩, 2, true),
       (Migrate.noFail, -1, false)] []).length ≤ 1 ∧
    (Mssql.setVersions ⟨"schema_migrations", "mydb", "dbo"⟩
      [(Migrate.noFail, 1, false), (⟨false, false, true, false⟩, 2, true),
       (Migrate.noFail, -1, false)] []).length ≤ 1 :=
  setVersion_sequence_at_most_one_row ⟨"schema_migrations", "ORCL"⟩
    ⟨"schema_migrations", "mydb", "dbo"⟩
    [(Migrate.noFail, 1, false), (⟨false, false, true, false⟩, 2, true),
     (Migrate.noFail, -1, false)] [] [] (by decide) (by decide)

/-- C5: the per-instance lock is a non-reentrant, non-blocking binary state
machine: `Lock()` on a locked instance fails with `ErrLocked` (so a second
`Lock()` without an intervening `Unlock()` fails), `Unlock()` on an unlocked
instance returns success and changes nothing, and after `Unlock()` a subsequent
`Lock()` succeeds and sets the `isLocked` flag.  Both drivers. -/
theorem lock_unlock_state_machine
    (o ol : Oracle.Driver) (m ml : Mssql.Driver)
    (ho : o.isLocked = false) (hol : ol.isLocked = true)
    (hm : m.isLocked = false) (hml : ml.isLocked = true) :
    (Oracle.lock ol).failure = some Migrate.LockFailure.errLocked ∧
    (Oracle.lock o).failure = none ∧
    (Oracle.lock o).driver.isLocked = true ∧
    (Oracle.lock (Oracle.lock o).driver).failure
      = some Migrate.LockFailure.errLocked ∧
    Oracle.unlock o = ⟨none, o, []⟩ ∧
    (Oracle.lock (Oracle.unlock ol).driver).failure = none ∧
    (Oracle.lock (Oracle.unlock ol).driver).driver.isLocked = true ∧
    (Mssql.lock ml).failure = some Migrate.LockFailure.errLocked ∧
    (Mssql.lock m).failure = none ∧
    (Mssql.lock m).driver.isLocked = true ∧
    (Mssql.lock (Mssql.lock m).driver).failure
      = some Migrate.LockFailure.errLocked ∧
    Mssql.unlock m = ⟨none, m, []⟩ ∧
    (Mssql.lock (Mssql.unlock ml).driver).failure = none ∧
    (Mssql.lock (Mssql.unlock ml).driver).driver.isLocked = true := by
  simp [Oracle.lock, Oracle.unlock, Mssql.lock, Mssql.unlock, ho, hol, hm, hml]

/-- Witness for C5: the lock state machine at concrete unlocked and locked
driver values. -/
theorem lock_unlock_state_machine_witness :
    (Oracle.lock ⟨true, true, true, ⟨"schema_migrations", "ORCL"⟩⟩).failure
      = some Migrate.LockFailure.errLocked ∧
    (Oracle.lock ⟨true, true, false, ⟨"schema_migrations", "ORCL"⟩⟩).failure = none ∧
    (Oracle.lock ⟨true, true, false, ⟨"schema_migrations", "ORCL"⟩⟩).driver.isLocked = true ∧
    (Oracle.lock (Oracle.lock
      ⟨true, true, false, ⟨"schema_migrations", "ORCL"⟩⟩).driver).failure
      = some Migrate.LockFailure.errLocked ∧
    Oracle.unlock ⟨true, true, false, ⟨"schema_migrations", "ORCL"⟩⟩
      = ⟨none, ⟨true, true, false, ⟨"schema_migrations", "ORCL"⟩⟩, []⟩ ∧
    (Oracle.lock (Oracle.unlock
      ⟨true, true, true, ⟨"schema_migrations", "ORCL"⟩⟩).driver).failure = none ∧
    (Oracle.lock (Oracle.unlock
      ⟨true, true, true, ⟨"schema_migrations", "ORCL"⟩⟩).driver).driver.isLocked = true ∧
    (Mssql.lock ⟨true, true, true, ⟨"schema_migrations", "mydb", "dbo"⟩⟩).failure
      = some Migrate.LockFailure.errLocked ∧
    (Mssql.lock ⟨true, true, false, ⟨"schema_migrations", "mydb", "dbo"⟩⟩).failure = none ∧
    (Mssql.lock ⟨true, true, false, ⟨"schema_migrations", "mydb", "dbo"⟩⟩).driver.isLocked = true ∧
    (Mssql.lock (Mssql.lock
      ⟨true, true, false, ⟨"schema_migrations", "mydb", "dbo"⟩⟩).driver).failure
      = some Migrate.LockFailure.errLocked ∧
    Mssql.unlock ⟨true, true, false, ⟨"schema_migrations", "mydb", "dbo"⟩⟩
      = ⟨none, ⟨true, true, false, ⟨"schema_migrations", "mydb", "dbo"⟩⟩, []⟩ ∧
    (Mssql.lock (Mssql.unlock
      ⟨true, true, true, ⟨"schema_migrations", "mydb", "dbo"⟩⟩).driver).failure = none ∧
    (Mssql.lock (Mssql.unlock
      ⟨true, true, true, ⟨"schema_migrations", "mydb", "dbo"⟩⟩).driver).driver.isLocked = true :=
  lock_unlock_state_machine
    ⟨true, true, false, ⟨"schema_migrations", "ORCL"⟩⟩
    ⟨true, true, true, ⟨"schema_migrations", "ORCL"⟩⟩
    ⟨true, true, false, ⟨"schema_migrations", "mydb", "dbo"⟩⟩
    ⟨true, true, true, ⟨"schema_migrations", "mydb", "dbo"⟩⟩
    rfl rfl rfl rfl

/-- C7: `WithInstance` stores the backend-discovered identity into the config,
overwriting any caller-supplied `SchemaName`/`DatabaseName`; an empty reported
identity fails with `ErrNoSchema` (Oracle) / `ErrNoDatabaseName` then
`ErrNoSchema` (MSSQL); and when no `MigrationsTable` was supplied the default
`"schema_migrations"` is applied (a supplied one is kept).  Both drivers. -/
theorem withInstance_discovers_identity_and_defaults
    (oenv oenv2 : Oracle.WithInstanceEnv) (ocfg ocfg2 : Oracle.Config)
    (menv menv2 menv3 : Mssql.WithInstanceEnv) (mcfg mcfg2 mcfg3 : Mssql.Config)
    (h1 : oenv.pingFails = false) (h2 : oenv.schemaQueryFails = false)
    (h3 : oenv.reportedSchemaName.length ≠ 0)
    (h4 : oenv.connFails = false) (h5 : oenv.ensureTableFails = false)
    (g1 : oenv2.pingFails = false) (g2 : oenv2.schemaQueryFails = false)
    (g3 : oenv2.reportedSchemaName.length = 0)
    (k1 : menv.pingFails = false) (k2 : menv.dbNameQueryFails = false)
    (k3 : menv.reportedDatabaseName.length ≠ 0)
    (k4 : menv.schemaQueryFails = false)
    (k5 : menv.reportedSchemaName.length ≠ 0)
    (k6 : menv.connFails = false) (k7 : menv.ensureTableFails = false)
    (l1 : menv2.pingFails = false) (l2 : menv2.dbNameQueryFails = false)
    (l3 : menv2.reportedDatabaseName.length = 0)
    (n1 : menv3.pingFails = false) (n2 : menv3.dbNameQueryFails = false)
    (n3 : menv3.reportedDatabaseName.length ≠ 0)
    (n4 : menv3.schemaQueryFails = false)
    (n5 : menv3.reportedSchemaName.length = 0) :
    Oracle.withInstance oenv (some ocfg)
      = Except.ok ⟨true, true, false,
          ⟨if ocfg.MigrationsTable.length = 0 then Oracle.DefaultMigrationsTable
            else ocfg.MigrationsTable, oenv.reportedSchemaName⟩⟩ ∧
    Oracle.withInstance oenv2 (some ocfg2)
      = Except.error Oracle.WithInstanceFailure.noSchema ∧
    Mssql.withInstance menv (some mcfg)
      = Except.ok ⟨true, true, false,
          ⟨if mcfg.MigrationsTable.length = 0 then Mssql.DefaultMigrationsTable
            else mcfg.MigrationsTable,
           menv.reportedDatabaseName, menv.reportedSchemaName⟩⟩ ∧
    Mssql.withInstance menv2 (some mcfg2)
      = Except.error Mssql.WithInstanceFailure.noDatabaseName ∧
    Mssql.withInstance menv3 (some mcfg3)
      = Except.error Mssql.WithInstanceFailure.noSchema := by
  refine ⟨?_, ?_, ?_, ?_, ?_⟩
  · by_cases hmt : ocfg.MigrationsTable.length = 0 <;>
      simp [Oracle.withInstance, h1, h2, h3, h4, h5, hmt]
  · simp [Oracle.withInstance, g1, g2, g3]
  · by_cases hmt : mcfg.MigrationsTable.length = 0 <;>
      simp [Mssql.withInstance, k1, k2, k3, k4, k5, k6, k7, hmt]
  · simp [Mssql.withInstance, l1, l2, l3]
  · simp [Mssql.withInstance, n1, n2, n3, n4, n5]

/-- Witness for C7: concrete environments — a backend reporting identity
`"ORCL"` / `"mydb"."dbo"` against caller-supplied names that get overwritten
and an empty `MigrationsTable` that gets defaulted, and backends reporting
empty identities that make `WithInstance` fail. -/
theorem withInstance_discovers_identity_and_defaults_witness :
    Oracle.withInstance ⟨false, false, "ORCL", false, false⟩
        (some ⟨"", "caller_schema"⟩)
      = Except.ok ⟨true, true, false,
          ⟨if ("" : String).length = 0 then Oracle.DefaultMigrationsTable
            else "", "ORCL"⟩⟩ ∧
    Oracle.withInstance ⟨false, false, "", false, false⟩
        (some ⟨"m", "caller_schema"⟩)
      = Except.error Oracle.WithInstanceFailure.noSchema ∧
    Mssql.withInstance ⟨false, false, "mydb", false, "dbo", false, false⟩
        (some ⟨"", "caller_db", "caller_schema"⟩)
      = Except.ok ⟨true, true, false,
          ⟨if ("" : String).length = 0 then Mssql.DefaultMigrationsTable
            else "", "mydb", "dbo"⟩⟩ ∧
    Mssql.withInstance ⟨false, false, "", false, "dbo", false, false⟩
        (some ⟨"m", "caller_db", "caller_schema"⟩)
      = Except.error Mssql.WithInstanceFailure.noDatabaseName ∧
    Mssql.withInstance ⟨false, false, "mydb", false, "", false, false⟩
        (some ⟨"m", "caller_db", "caller_schema"⟩)
      = Except.error Mssql.WithInstanceFailure.noSchema :=
  withInstance_discovers_identity_and_defaults
    ⟨false, false, "ORCL", false, false⟩ ⟨false, false, "", false, false⟩
    ⟨"", "caller_schema"⟩ ⟨"m", "caller_schema"⟩
    ⟨false, false, "mydb", false, "dbo", false, false⟩
    ⟨false, false, "", false, "dbo", false, false⟩
    ⟨false, false, "mydb", false, "", false, false⟩
    ⟨"", "caller_db", "caller_schema"⟩ ⟨"m", "caller_db", "caller_schema"⟩
    ⟨"m", "caller_db", "caller_schema"⟩
    rfl rfl (by decide) rfl rfl rfl rfl rfl
    rfl rfl (by decide) rfl (by decide) rfl rfl
    rfl rfl rfl
    rfl rfl (by decide) rfl rfl

/-- C10: `Lock()` and `Unlock()` issue no backend command at all — their
command trace is empty in every state — and mutual exclusion is per-instance:
for two distinct driver instances pointed at the same database (equal
schema/database identity), `Lock()` on the unlocked one succeeds even while the
other currently holds its lock.  Both drivers. -/
theorem lock_unlock_no_backend_commands_per_instance
    (o1 o2 : Oracle.Driver) (m1 m2 : Mssql.Driver)
    (h1 : o1.isLocked = false) (h2 : o2.isLocked = true)
    (hs : o1.config.SchemaName = o2.config.SchemaName)
    (k1 : m1.isLocked = false) (k2 : m2.isLocked = true)
    (ks1 : m1.config.DatabaseName = m2.config.DatabaseName)
    (ks2 : m1.config.SchemaName = m2.config.SchemaName) :
    (Oracle.lock o1).cmds = [] ∧ (Oracle.lock o2).cmds = [] ∧
    (Oracle.unlock o1).cmds = [] ∧ (Oracle.unlock o2).cmds = [] ∧
    (Oracle.lock o1).failure = none ∧
    (Oracle.lock o1).driver.isLocked = true ∧
    (Mssql.lock m1).cmds = [] ∧ (Mssql.lock m2).cmds = [] ∧
    (Mssql.unlock m1).cmds = [] ∧ (Mssql.unlock m2).cmds = [] ∧
    (Mssql.lock m1).failure = none ∧
    (Mssql.lock m1).driver.isLocked = true := by
  simp [Oracle.lock, Oracle.unlock, Mssql.lock, Mssql.unlock, h1, h2, k1, k2]

/-- Witness for C10: two Oracle instances and two MSSQL instances on the same
identity, the second of each holding its lock; the first still acquires, and
all four lock/unlock calls issue no backend command. -/
theorem lock_unlock_no_backend_commands_per_instance_witness :
    (Oracle.lock ⟨true, true, false, ⟨"schema_migrations", "ORCL"⟩⟩).cmds = [] ∧
    (Oracle.lock ⟨true, true, true, ⟨"schema_migrations", "ORCL"⟩⟩).cmds = [] ∧
    (Oracle.unlock ⟨true, true, false, ⟨"schema_migrations", "ORCL"⟩⟩).cmds = [] ∧
    (Oracle.unlock ⟨true, true, true, ⟨"schema_migrations", "ORCL"⟩⟩).cmds = [] ∧
    (Oracle.lock ⟨true, true, false, ⟨"schema_migrations", "ORCL"⟩⟩).failure = none ∧
    (Oracle.lock ⟨true, true, false, ⟨"schema_migrations", "ORCL"⟩⟩).driver.isLocked = true ∧
    (Mssql.lock ⟨true, true, false, ⟨"schema_migrations", "mydb", "dbo"⟩⟩).cmds = [] ∧
    (Mssql.lock ⟨true, true, true, ⟨"schema_migrations", "mydb", "dbo"⟩⟩).cmds = [] ∧
    (Mssql.unlock ⟨true, true, false, ⟨"schema_migrations", "mydb", "dbo"⟩⟩).cmds = [] ∧
    (Mssql.unlock ⟨true, true, true, ⟨"schema_migrations", "mydb", "dbo"⟩⟩).cmds = [] ∧
    (Mssql.lock ⟨true, true, false, ⟨"schema_migrations", "mydb", "dbo"⟩⟩).failure = none ∧
    (Mssql.lock ⟨true, true, false, ⟨"schema_migrations", "mydb", "dbo"⟩⟩).driver.isLocked = true :=
  lock_unlock_no_backend_commands_per_instance
    ⟨true, true, false, ⟨"schema_migrations", "ORCL"⟩⟩
    ⟨true, true, true, ⟨"schema_migrations", "ORCL"⟩⟩
    ⟨true, true, false, ⟨"schema_migrations", "mydb", "dbo"⟩⟩
    ⟨true, true, true, ⟨"schema_migrations", "mydb", "dbo"⟩⟩
    rfl rfl rfl rfl rfl rfl rfl
